import Mathlib

/-!
Shallow embedding of src/item_39_queue.py (a multi-stage queue pipeline).

Python objects are modelled by a pair of naturals: `id` models object
identity (what the Python operator named is compares), `val` models value
equality (what == compares).  Two distinct objects never share an `id`.

The polling variant (MyQueue / Worker) and the blocking variant
(ClosableQueue / StoppableWorker) are embedded separately, each faithful to
the source.  Blocking calls are modelled by Option results: `none` means the
calling thread is blocked (for Queue.put on a full queue, Queue.get on an
empty queue) or, for MyQueue.get, that deque.popleft raised IndexError.
-/

namespace Item39

/-- Python object: `id` is its identity, `val` is its value for equality. -/
structure PyObj where
  id : Nat
  val : Nat
deriving DecidableEq

/-- Identity transform of stage 1 (def download(item): return item). -/
def download (item : PyObj) : PyObj := item

/-- Identity transform of stage 2 (def resize(item): return item). -/
def resize (item : PyObj) : PyObj := item

/-- Identity transform of stage 3 (def upload(item): return item). -/
def upload (item : PyObj) : PyObj := item

/-- MyQueue: a mutex-guarded deque (class MyQueue, lines 27-38). -/
structure MyQueue where
  items : List PyObj
deriving DecidableEq

/-- MyQueue.put: with the lock held, append the item (always succeeds). -/
def MyQueue.put (q : MyQueue) (item : PyObj) : MyQueue :=
  MyQueue.mk (q.items ++ [item])

/-- MyQueue.get: with the lock held, popleft; on an empty deque popleft
raises IndexError, modelled as `none` (the no-work signal the polling
worker catches). -/
def MyQueue.get (q : MyQueue) : Option (PyObj × MyQueue) :=
  match q.items with
  | [] => none
  | item :: rest => some (item, MyQueue.mk rest)

/-- Duration of one time.sleep(0.01) call, in hundredths of a second. -/
def sleepCentis : Nat := 1

/-- Polling Worker state (class Worker, lines 41-60): its two queues and
its counters; `slept_centis` additionally records the total time spent in
time.sleep(0.01) calls, in hundredths of a second. -/
structure Worker where
  in_queue : MyQueue
  out_queue : MyQueue
  polled_count : Nat
  work_done : Nat
  slept_centis : Nat
deriving DecidableEq

/-- One iteration of Worker.run's while-True loop (lines 50-60):
polled_count is incremented, then get() is attempted; IndexError means
sleep(0.01), otherwise the transform is applied and the result forwarded. -/
def Worker.step (f : PyObj → PyObj) (w : Worker) : Worker :=
  let w1 : Worker :=
    { w with polled_count := w.polled_count + 1 }
  match w1.in_queue.get with
  | none =>
      { w1 with slept_centis := w1.slept_centis + sleepCentis }
  | some (item, q) =>
      { w1 with
          in_queue := q,
          out_queue := w1.out_queue.put (f item),
          work_done := w1.work_done + 1 }

/-- n iterations of the polling worker's loop.  The loop body has no exit
path, so the iteration count is unconstrained. -/
def Worker.runSteps (f : PyObj → PyObj) : Nat → Worker → Worker
  | 0, w => w
  | Nat.succ n, w => Worker.runSteps f n (Worker.step f w)

/-- ClosableQueue state (class ClosableQueue, lines 148-162, inheriting
queue.Queue): the buffered items, the maxsize bound (0 means unbounded,
Python's default) and the unfinished_tasks counter maintained by
Queue.put / Queue.task_done and consulted by Queue.join. -/
structure ClosableQueue where
  queue : List PyObj
  maxsize : Nat
  unfinished_tasks : Nat
deriving DecidableEq

/-- SENTINEL: the single class-level object() shared by every
ClosableQueue instance (line 149).  Its id is fixed once at class creation;
no user object shares it. -/
def ClosableQueue.SENTINEL : PyObj := PyObj.mk 0 0

/-- ClosableQueue(): Python's Queue() default is maxsize=0, unbounded. -/
def ClosableQueue.new : ClosableQueue := ClosableQueue.mk [] 0 0

/-- Queue.full-style test: a queue with maxsize 0 is never full. -/
def ClosableQueue.isFull (q : ClosableQueue) : Bool :=
  decide (0 < q.maxsize ∧ q.maxsize ≤ q.queue.length)

/-- Queue.put: blocks while the buffer is full (modelled as `none`, no
error is raised); otherwise appends the item and increments
unfinished_tasks. -/
def ClosableQueue.put? (q : ClosableQueue) (item : PyObj) : Option ClosableQueue :=
  if q.isFull then none
  else some { q with
                queue := q.queue ++ [item],
                unfinished_tasks := q.unfinished_tasks + 1 }

/-- Queue.get: blocks while the buffer is empty (modelled as `none`);
otherwise removes and returns the head item (FIFO). -/
def ClosableQueue.get? (q : ClosableQueue) : Option (PyObj × ClosableQueue) :=
  match q.queue with
  | [] => none
  | item :: rest => some (item, { q with queue := rest })

/-- Queue.task_done: decrements unfinished_tasks (never reaches the
called-too-many-times error in the runs modelled here). -/
def ClosableQueue.task_done (q : ClosableQueue) : ClosableQueue :=
  { q with unfinished_tasks := q.unfinished_tasks - 1 }

/-- ClosableQueue.close (lines 151-152): exactly self.put(SENTINEL); a
blocked put (full bounded queue) leaves the state unchanged while the
caller waits. -/
def ClosableQueue.close (q : ClosableQueue) : ClosableQueue :=
  match q.put? ClosableQueue.SENTINEL with
  | some q1 => q1
  | none => q

/-- Queue.join returns exactly when unfinished_tasks is zero; this is the
condition join waits for. -/
def ClosableQueue.joinReady (q : ClosableQueue) : Bool :=
  q.unfinished_tasks == 0

/-- Items yielded by ClosableQueue.__iter__ (lines 154-162) when the
buffer holds the given contents: get() repeatedly, stop without yielding
when the dequeued item IS the sentinel (identity comparison on id). -/
def iterYield : List PyObj → List PyObj
  | [] => []
  | x :: rest =>
      if x.id = ClosableQueue.SENTINEL.id then []
      else x :: iterYield rest

/-- Number of task_done() calls made by __iter__'s try/finally while
consuming the given buffer: one per dequeued item, the terminal sentinel
included. -/
def iterDone : List PyObj → Nat
  | [] => 0
  | x :: rest =>
      if x.id = ClosableQueue.SENTINEL.id then 1
      else iterDone rest + 1

/-- Buffer contents left behind after __iter__ terminates on the first
sentinel. -/
def iterRest : List PyObj → List PyObj
  | [] => []
  | x :: rest =>
      if x.id = ClosableQueue.SENTINEL.id then rest
      else iterRest rest

/-- How a StoppableWorker.run invocation ended: the input iterator saw the
sentinel and the thread exited (finished), the transform raised and the
error terminated the thread (crashed), or the worker is still blocked in
get() waiting for more input (blocked). -/
inductive RunStatus where
  | finished : RunStatus
  | crashed : Nat → RunStatus
  | blocked : RunStatus
deriving DecidableEq

/-- Observable outcome of StoppableWorker.run (lines 172-175) over one
input buffer: `fed` are the items passed to the transform, `out` the
results put on the out_queue, `done` the number of task_done() calls made
on the in_queue (via __iter__'s finally, which runs on every exit path,
a transform error included). -/
structure RunResult where
  fed : List PyObj
  out : List PyObj
  done : Nat
  status : RunStatus
deriving DecidableEq

/-- StoppableWorker.run over the given input buffer with a fallible
transform: for item in self.in_queue: result = func(item);
out_queue.put(result).  A transform error is not caught - it ends the
run, and the in-hand item's task_done still happens via the generator's
finally. -/
def runWorker (f : PyObj → Except Nat PyObj) : List PyObj → RunResult
  | [] => RunResult.mk [] [] 0 RunStatus.blocked
  | x :: rest =>
      if x.id = ClosableQueue.SENTINEL.id then
        RunResult.mk [] [] 1 RunStatus.finished
      else
        match f x with
        | Except.ok y =>
            let r := runWorker f rest
            RunResult.mk (x :: r.fed) (y :: r.out) (r.done + 1) r.status
        | Except.error e =>
            RunResult.mk [x] [] 1 (RunStatus.crashed e)

/-- Wraps a total transform (the source's identity stubs) as a never-
failing one for runWorker. -/
def okF (g : PyObj → PyObj) : PyObj → Except Nat PyObj :=
  fun x => Except.ok (g x)

/-- No element of the buffer is the sentinel object. -/
def sentinelFree (buf : List PyObj) : Prop :=
  ∀ x ∈ buf, x.id ≠ ClosableQueue.SENTINEL.id

instance (buf : List PyObj) : Decidable (sentinelFree buf) := by
  unfold sentinelFree
  infer_instance

/-- Effect on a ClosableQueue of its single consumer running __iter__ to
termination: the yielded items and the terminal sentinel are dequeued and
each receives a task_done. -/
def consumeAll (q : ClosableQueue) : ClosableQueue :=
  { q with
      queue := iterRest q.queue,
      unfinished_tasks := q.unfinished_tasks - iterDone q.queue }

/-- Observables of the example_five run that the claims speak about. -/
structure FiveResult where
  resize_unfinished : Nat
  done_queue : List PyObj
deriving DecidableEq

/-- The serialized execution of example_five (lines 178-201), valid
because each stage has one producer and one consumer and the main thread
interleaves join() calls: all inputs are put and download_queue closed
(one sentinel); the download worker drains it (join returns); the main
thread closes resize_queue TWICE (lines 196-197, two sentinels); the
resize worker consumes up to the first sentinel; the upload worker
consumes everything the resize worker forwarded (upload_queue's close on
line 199 is never reached because resize_queue.join() on line 198 blocks
on the second sentinel).  `resize_unfinished` is resize_queue's
unfinished_tasks once its consumer has exited. -/
def example_five (inputs : List PyObj) : FiveResult :=
  let download_buffer := inputs ++ [ClosableQueue.SENTINEL]
  let r1 := runWorker (okF download) download_buffer
  let resize_buffer := r1.out ++ [ClosableQueue.SENTINEL, ClosableQueue.SENTINEL]
  let resize_puts := r1.out.length + 2
  let r2 := runWorker (okF resize) resize_buffer
  let r3 := runWorker (okF upload) r2.out
  FiveResult.mk (resize_puts - r2.done) r3.out

/-- Whether resize_queue.join() on line 198 can ever return. -/
def FiveResult.resize_join_ready (r : FiveResult) : Bool :=
  r.resize_unfinished == 0

/-- Operations one can perform on a ClosableQueue. -/
inductive QOp where
  | put : PyObj → QOp
  | get : QOp
  | task_done : QOp
deriving DecidableEq

/-- Apply one operation; a blocked put or get leaves the state unchanged
(the caller is still waiting). -/
def applyOp (q : ClosableQueue) (op : QOp) : ClosableQueue :=
  match op with
  | QOp.put x =>
      match q.put? x with
      | none => q
      | some q1 => q1
  | QOp.get =>
      match q.get? with
      | none => q
      | some (_, q1) => q1
  | QOp.task_done => q.task_done

/-- Apply a whole operation sequence. -/
def applyOps (ops : List QOp) (q : ClosableQueue) : ClosableQueue :=
  List.foldl applyOp q ops

/-- Operations on a MyQueue. -/
inductive MOp where
  | put : PyObj → MOp
  | get : MOp
deriving DecidableEq

/-- A MyQueue together with the list of items retrieved so far, in
retrieval order. -/
structure MTrace where
  q : MyQueue
  got : List PyObj
deriving DecidableEq

/-- Run one MyQueue operation: put appends; get pops the head when
present (IndexError on empty removes nothing). -/
def mStep (t : MTrace) (op : MOp) : MTrace :=
  match op with
  | MOp.put x => MTrace.mk (t.q.put x) t.got
  | MOp.get =>
      match t.q.get with
      | none => t
      | some (x, q1) => MTrace.mk q1 (t.got ++ [x])

/-- Run an operation sequence against an initially empty MyQueue. -/
def mRun (ops : List MOp) : MTrace :=
  List.foldl mStep (MTrace.mk (MyQueue.mk []) []) ops

/-- The items put by an operation sequence, in put order. -/
def putsOf (ops : List MOp) : List PyObj :=
  ops.filterMap fun op =>
    match op with
    | MOp.put x => some x
    | MOp.get => none

/-- A ClosableQueue together with the list of items retrieved so far. -/
structure QTrace where
  q : ClosableQueue
  got : List PyObj
deriving DecidableEq

/-- Run one ClosableQueue operation, recording retrieved items. -/
def qStep (t : QTrace) (op : QOp) : QTrace :=
  match op with
  | QOp.put x =>
      match t.q.put? x with
      | none => t
      | some q1 => QTrace.mk q1 t.got
  | QOp.get =>
      match t.q.get? with
      | none => t
      | some (x, q1) => QTrace.mk q1 (t.got ++ [x])
  | QOp.task_done => QTrace.mk t.q.task_done t.got

/-- Run an operation sequence against a fresh unbounded ClosableQueue. -/
def qRun (ops : List QOp) : QTrace :=
  List.foldl qStep (QTrace.mk ClosableQueue.new []) ops

/-- The items put by a ClosableQueue operation sequence, in put order. -/
def qPutsOf (ops : List QOp) : List PyObj :=
  ops.filterMap fun op =>
    match op with
    | QOp.put x => some x
    | _ => none

/-- A transform that fails (with code 42) exactly on the object of id 7;
used to exhibit the worker-crash behavior on a concrete input. -/
def crashFunc : PyObj → Except Nat PyObj :=
  fun y => if y.id = 7 then Except.error 42 else Except.ok y

/-- Taking as many elements as the left list has from an append returns
the left list. -/
theorem take_len_append (l1 l2 : List PyObj) :
    (l1 ++ l2).take l1.length = l1 := by
  induction l1 with
  | nil => simp
  | cons x xs ih => simp [ih]

/-- Iteration yields exactly the longest sentinel-free initial segment of
the buffer. -/
theorem iterYield_eq_takeWhile (buf : List PyObj) :
    iterYield buf = buf.takeWhile (fun x => x.id != ClosableQueue.SENTINEL.id) := by
  induction buf with
  | nil => rfl
  | cons x xs ih =>
    by_cases h : x.id = ClosableQueue.SENTINEL.id
    · simp [iterYield, List.takeWhile_cons, bne_iff_ne, h]
    · simp [iterYield, List.takeWhile_cons, bne_iff_ne, h, ih]

/-- Iteration of a buffer ending in the sentinel yields exactly the items
ahead of it. -/
theorem iterYield_append_sentinel (buf rest : List PyObj)
    (h : sentinelFree buf) :
    iterYield (buf ++ ClosableQueue.SENTINEL :: rest) = buf := by
  induction buf with
  | nil => simp [iterYield]
  | cons x xs ih =>
    have hx : x.id ≠ ClosableQueue.SENTINEL.id := h x (by simp)
    have hxs : sentinelFree xs := fun y hy => h y (by simp [hy])
    simp [iterYield, hx, ih hxs]

/-- Consuming a buffer that ends in the sentinel performs one task_done
per item ahead of it plus one for the sentinel itself. -/
theorem iterDone_append_sentinel (buf rest : List PyObj)
    (h : sentinelFree buf) :
    iterDone (buf ++ ClosableQueue.SENTINEL :: rest) = buf.length + 1 := by
  induction buf with
  | nil => simp [iterDone]
  | cons x xs ih =>
    have hx : x.id ≠ ClosableQueue.SENTINEL.id := h x (by simp)
    have hxs : sentinelFree xs := fun y hy => h y (by simp [hy])
    simp [iterDone, hx, ih hxs]

/-- What remains in the buffer after iteration stops at the first
sentinel. -/
theorem iterRest_append_sentinel (buf rest : List PyObj)
    (h : sentinelFree buf) :
    iterRest (buf ++ ClosableQueue.SENTINEL :: rest) = rest := by
  induction buf with
  | nil => simp [iterRest]
  | cons x xs ih =>
    have hx : x.id ≠ ClosableQueue.SENTINEL.id := h x (by simp)
    have hxs : sentinelFree xs := fun y hy => h y (by simp [hy])
    simp [iterRest, hx, ih hxs]

/-- The sentinel is never among the items iteration yields. -/
theorem iterYield_no_sentinel (buf : List PyObj) :
    ∀ x ∈ iterYield buf, x.id ≠ ClosableQueue.SENTINEL.id := by
  induction buf with
  | nil => intro x hx; simp [iterYield] at hx
  | cons y ys ih =>
    intro x hx
    by_cases h : y.id = ClosableQueue.SENTINEL.id
    · simp [iterYield, h] at hx
    · simp [iterYield, h] at hx
      rcases hx with hx | hx
      · exact hx ▸ h
      · exact ih x hx

/-- On a buffer that does contain the sentinel, the number of task_done
calls is the number of yielded items plus one for the terminal sentinel. -/
theorem iterDone_eq (buf : List PyObj)
    (h : ∃ x ∈ buf, x.id = ClosableQueue.SENTINEL.id) :
    iterDone buf = (iterYield buf).length + 1 := by
  induction buf with
  | nil => simp at h
  | cons y ys ih =>
    by_cases hy : y.id = ClosableQueue.SENTINEL.id
    · simp [iterDone, iterYield, hy]
    · have h' : ∃ x ∈ ys, x.id = ClosableQueue.SENTINEL.id := by
        rcases h with ⟨x, hx, hid⟩
        rcases List.mem_cons.mp hx with hx | hx
        · exact absurd (hx ▸ hid) hy
        · exact ⟨x, hx, hid⟩
      simp [iterDone, iterYield, hy, ih h']

/-- A worker over a sentinel-free buffer with a total transform consumes
everything, forwards every transformed item in order, marks each done,
and ends blocked in get() waiting for more input. -/
theorem runWorker_ok (g : PyObj → PyObj) (buf : List PyObj)
    (h : sentinelFree buf) :
    runWorker (okF g) buf
      = RunResult.mk buf (buf.map g) buf.length RunStatus.blocked := by
  induction buf with
  | nil => rfl
  | cons x xs ih =>
    have hx : x.id ≠ ClosableQueue.SENTINEL.id := h x (by simp)
    have hxs : sentinelFree xs := fun y hy => h y (by simp [hy])
    simp [runWorker, okF, hx, ih hxs]

/-- A worker over a buffer that is a sentinel-free segment followed by
the sentinel consumes exactly that segment, forwards its image, marks
every dequeued item done (sentinel included) and terminates cleanly. -/
theorem runWorker_ok_sentinel (g : PyObj → PyObj) (buf rest : List PyObj)
    (h : sentinelFree buf) :
    runWorker (okF g) (buf ++ ClosableQueue.SENTINEL :: rest)
      = RunResult.mk buf (buf.map g) (buf.length + 1) RunStatus.finished := by
  induction buf with
  | nil => simp [runWorker]
  | cons x xs ih =>
    have hx : x.id ≠ ClosableQueue.SENTINEL.id := h x (by simp)
    have hxs : sentinelFree xs := fun y hy => h y (by simp [hy])
    simp [runWorker, okF, hx, ih hxs]

/-- The sentinel is never fed to the transform function. -/
theorem runWorker_fed_no_sentinel (f : PyObj → Except Nat PyObj)
    (buf : List PyObj) :
    ∀ x ∈ (runWorker f buf).fed, x.id ≠ ClosableQueue.SENTINEL.id := by
  induction buf with
  | nil => intro x hx; simp [runWorker] at hx
  | cons y ys ih =>
    intro x hx
    by_cases hy : y.id = ClosableQueue.SENTINEL.id
    · simp [runWorker, hy] at hx
    · rcases he : f y with e | z
      · simp [runWorker, hy, he] at hx
        exact hx ▸ hy
      · simp [runWorker, hy, he] at hx
        rcases hx with hx | hx
        · exact hx ▸ hy
        · exact ih x hx

/-- Every dequeued item is marked done on every exit path: the task_done
count equals the number of items fed to the transform, plus one for the
terminal sentinel when the run finished by seeing it (a crashed run still
counts its in-hand failing item; a blocked run counts everything fed). -/
theorem runWorker_done_counts (f : PyObj → Except Nat PyObj)
    (buf : List PyObj) :
    (runWorker f buf).done = (runWorker f buf).fed.length
      + (if (runWorker f buf).status = RunStatus.finished then 1 else 0) := by
  induction buf with
  | nil => simp [runWorker]
  | cons y ys ih =>
    by_cases hy : y.id = ClosableQueue.SENTINEL.id
    · simp [runWorker, hy]
    · rcases he : f y with e | z
      · simp [runWorker, hy, he]
      · have hr := ih
        simp [runWorker, hy, he]
        omega

/-- Invariant of MyQueue runs: the retrieved items followed by the items
still buffered are exactly the items put, in put order. -/
theorem mRun_inv (ops : List MOp) : ∀ t : MTrace,
    (List.foldl mStep t ops).got ++ (List.foldl mStep t ops).q.items
      = t.got ++ t.q.items ++ putsOf ops := by
  induction ops with
  | nil => intro t; simp [putsOf]
  | cons op ops ih =>
    intro t
    cases op with
    | put x =>
      have h := ih (mStep t (MOp.put x))
      simp [mStep, MyQueue.put, putsOf, List.filterMap_cons] at h ⊢
      simp [h]
    | get =>
      have h := ih (mStep t MOp.get)
      rcases t with ⟨⟨items⟩, got⟩
      cases items with
      | nil =>
        simp [mStep, MyQueue.get, putsOf, List.filterMap_cons] at h ⊢
        exact h
      | cons y ys =>
        simp [mStep, MyQueue.get, putsOf, List.filterMap_cons] at h ⊢
        simp [h]

/-- Invariant of ClosableQueue runs on an unbounded queue: the retrieved
items followed by the buffered items are exactly the items put, in put
order; the maxsize stays 0 so no put ever blocks. -/
theorem qRun_inv (ops : List QOp) : ∀ t : QTrace, t.q.maxsize = 0 →
    (List.foldl qStep t ops).got ++ (List.foldl qStep t ops).q.queue
      = t.got ++ t.q.queue ++ qPutsOf ops := by
  induction ops with
  | nil => intro t _; simp [qPutsOf]
  | cons op ops ih =>
    intro t hm
    cases op with
    | put x =>
      have hput : t.q.put? x
          = some { t.q with
                     queue := t.q.queue ++ [x],
                     unfinished_tasks := t.q.unfinished_tasks + 1 } := by
        simp [ClosableQueue.put?, ClosableQueue.isFull, hm]
      have h := ih (qStep t (QOp.put x)) (by simp [qStep, hput, hm])
      simp [qStep, hput, qPutsOf, List.filterMap_cons] at h ⊢
      simp [h]
    | get =>
      rcases t with ⟨⟨items, ms, uf⟩, got⟩
      cases items with
      | nil =>
        have h := ih (qStep (QTrace.mk (ClosableQueue.mk [] ms uf) got) QOp.get)
          (by simp [qStep, ClosableQueue.get?]; exact hm)
        simp [qStep, ClosableQueue.get?, qPutsOf, List.filterMap_cons] at h ⊢
        exact h
      | cons y ys =>
        have h := ih (qStep (QTrace.mk (ClosableQueue.mk (y :: ys) ms uf) got) QOp.get)
          (by simp [qStep, ClosableQueue.get?]; exact hm)
        simp [qStep, ClosableQueue.get?, qPutsOf, List.filterMap_cons] at h ⊢
        simp [h]
    | task_done =>
      have h := ih (qStep t QOp.task_done)
        (by simp [qStep, ClosableQueue.task_done]; exact hm)
      simp [qStep, ClosableQueue.task_done, qPutsOf, List.filterMap_cons] at h ⊢
      exact h

/-- One operation on a bounded queue preserves the capacity bound and the
maxsize: a put that would overflow the buffer blocks (changes nothing)
instead of appending. -/
theorem applyOp_length_le (q : ClosableQueue) (op : QOp)
    (hC : 0 < q.maxsize) (h : q.queue.length ≤ q.maxsize) :
    (applyOp q op).queue.length ≤ q.maxsize
      ∧ (applyOp q op).maxsize = q.maxsize := by
  cases op with
  | put x =>
    by_cases hf : q.isFull = true
    · simp [applyOp, ClosableQueue.put?, hf]
      exact h
    · have hb : ¬(0 < q.maxsize ∧ q.maxsize ≤ q.queue.length) := by
        simpa [ClosableQueue.isFull] using hf
      simp [applyOp, ClosableQueue.put?, hf]
      omega
  | get =>
    rcases q with ⟨items, ms, uf⟩
    cases items with
    | nil =>
      simp [applyOp, ClosableQueue.get?]
    | cons y ys =>
      simp [applyOp, ClosableQueue.get?] at h ⊢
      omega
  | task_done =>
    simp [applyOp, ClosableQueue.task_done]
    exact h

/-- A whole operation sequence on a bounded queue keeps the buffer within
the capacity. -/
theorem applyOps_length_le (ops : List QOp) : ∀ q : ClosableQueue,
    0 < q.maxsize → q.queue.length ≤ q.maxsize →
    (applyOps ops q).queue.length ≤ q.maxsize
      ∧ (applyOps ops q).maxsize = q.maxsize := by
  induction ops with
  | nil => intro q _ h; exact ⟨h, rfl⟩
  | cons op ops ih =>
    intro q hC h
    have h1 := applyOp_length_le q op hC h
    have h2 := ih (applyOp q op) (h1.2 ▸ hC) (h1.2 ▸ h1.1)
    refine ⟨?_, ?_⟩
    · have h3 := h2.1
      rw [h1.2] at h3
      simpa [applyOps] using h3
    · have h3 := h2.2
      rw [h1.2] at h3
      simpa [applyOps] using h3

/-- Closing an unbounded queue appends the sentinel and counts one more
unfinished task, exactly like one put of the sentinel. -/
theorem close_unbounded (q : ClosableQueue) (hm : q.maxsize = 0) :
    q.close = ClosableQueue.mk (q.queue ++ [ClosableQueue.SENTINEL])
      q.maxsize (q.unfinished_tasks + 1) := by
  simp [ClosableQueue.close, ClosableQueue.put?, ClosableQueue.isFull, hm]

/-- Mapping a pointwise-identity transform over a list changes nothing. -/
theorem map_identity (g : PyObj → PyObj) (hg : ∀ x, g x = x) :
    ∀ l : List PyObj, l.map g = l := by
  intro l
  induction l with
  | nil => rfl
  | cons x xs ih => simp [hg, ih]

/-- C1 (status code_bug).  In example_five the spec's conservation claim
is broken by the double close of resize_queue (lines 196-197): for any
sentinel-free input list, after the resize worker has consumed its whole
input the second sentinel leaves resize_queue's unfinished-task count at
1, so resize_queue.join() on line 198 never returns and the close/join
sequence never completes - even though every input item does reach
done_queue with no loss and no duplication. -/
theorem example_five_double_close_blocks_join (inputs : List PyObj)
    (h : sentinelFree inputs) :
    (example_five inputs).resize_unfinished = 1
    ∧ (example_five inputs).resize_join_ready = false
    ∧ (example_five inputs).done_queue = inputs := by
  have hmapd : inputs.map download = inputs := map_identity download (fun _ => rfl) inputs
  have hmapr : inputs.map resize = inputs := map_identity resize (fun _ => rfl) inputs
  have hmapu : inputs.map upload = inputs := map_identity upload (fun _ => rfl) inputs
  have e1 := runWorker_ok_sentinel download inputs [] h
  have e2 := runWorker_ok_sentinel resize inputs [ClosableQueue.SENTINEL] h
  have e3 := runWorker_ok upload inputs h
  simp [example_five, FiveResult.resize_join_ready, e1, hmapd, e2, hmapr, e3, hmapu]

/-- Witness for C1 at a concrete three-item input. -/
theorem example_five_double_close_blocks_join_witness :
    sentinelFree [PyObj.mk 1 1, PyObj.mk 2 2, PyObj.mk 3 3]
    ∧ ((example_five [PyObj.mk 1 1, PyObj.mk 2 2, PyObj.mk 3 3]).resize_unfinished = 1
        ∧ (example_five [PyObj.mk 1 1, PyObj.mk 2 2, PyObj.mk 3 3]).resize_join_ready = false
        ∧ (example_five [PyObj.mk 1 1, PyObj.mk 2 2, PyObj.mk 3 3]).done_queue
            = [PyObj.mk 1 1, PyObj.mk 2 2, PyObj.mk 3 3]) :=
  ⟨by decide, example_five_double_close_blocks_join
    [PyObj.mk 1 1, PyObj.mk 2 2, PyObj.mk 3 3] (by decide)⟩

/-- C2.  Each close() enqueues exactly one sentinel (close is one put of
the sentinel); closing a queue twice enqueues two, and after its single
consumer has iterated to termination (consuming only the first sentinel)
the second sentinel is still buffered, the unfinished-task count is 1,
and join() therefore does not report completion - exactly the situation
of resize_queue in example_five. -/
theorem close_twice_leaves_unconsumed_sentinel (buf : List PyObj)
    (h : sentinelFree buf) :
    (∀ q : ClosableQueue, q.maxsize = 0 →
        q.close.queue = q.queue ++ [ClosableQueue.SENTINEL]
        ∧ q.close.unfinished_tasks = q.unfinished_tasks + 1)
    ∧ ((ClosableQueue.mk buf 0 buf.length).close.close).queue
        = buf ++ [ClosableQueue.SENTINEL, ClosableQueue.SENTINEL]
    ∧ consumeAll ((ClosableQueue.mk buf 0 buf.length).close.close)
        = ClosableQueue.mk [ClosableQueue.SENTINEL] 0 1
    ∧ (consumeAll ((ClosableQueue.mk buf 0 buf.length).close.close)).joinReady
        = false := by
  have hq1 : (ClosableQueue.mk buf 0 buf.length).close
      = ClosableQueue.mk (buf ++ [ClosableQueue.SENTINEL]) 0 (buf.length + 1) :=
    close_unbounded (ClosableQueue.mk buf 0 buf.length) rfl
  have hq2 : (ClosableQueue.mk buf 0 buf.length).close.close
      = ClosableQueue.mk (buf ++ [ClosableQueue.SENTINEL, ClosableQueue.SENTINEL])
          0 (buf.length + 2) := by
    rw [hq1]
    have h2 := close_unbounded
      (ClosableQueue.mk (buf ++ [ClosableQueue.SENTINEL]) 0 (buf.length + 1)) rfl
    simpa [List.append_assoc] using h2
  have hc : consumeAll ((ClosableQueue.mk buf 0 buf.length).close.close)
      = ClosableQueue.mk [ClosableQueue.SENTINEL] 0 1 := by
    rw [hq2]
    have h1 := iterRest_append_sentinel buf [ClosableQueue.SENTINEL] h
    have h2 := iterDone_append_sentinel buf [ClosableQueue.SENTINEL] h
    simp [consumeAll, h1, h2]
  refine ⟨fun q hm => ?_, by rw [hq2], hc, by rw [hc]; rfl⟩
  rw [close_unbounded q hm]
  exact ⟨rfl, rfl⟩

/-- Witness for C2 at a concrete two-item buffer. -/
theorem close_twice_leaves_unconsumed_sentinel_witness :
    sentinelFree [PyObj.mk 1 1, PyObj.mk 2 2]
    ∧ ((∀ q : ClosableQueue, q.maxsize = 0 →
          q.close.queue = q.queue ++ [ClosableQueue.SENTINEL]
          ∧ q.close.unfinished_tasks = q.unfinished_tasks + 1)
        ∧ ((ClosableQueue.mk [PyObj.mk 1 1, PyObj.mk 2 2] 0 2).close.close).queue
            = [PyObj.mk 1 1, PyObj.mk 2 2]
              ++ [ClosableQueue.SENTINEL, ClosableQueue.SENTINEL]
        ∧ consumeAll ((ClosableQueue.mk [PyObj.mk 1 1, PyObj.mk 2 2] 0 2).close.close)
            = ClosableQueue.mk [ClosableQueue.SENTINEL] 0 1
        ∧ (consumeAll
            ((ClosableQueue.mk [PyObj.mk 1 1, PyObj.mk 2 2] 0 2).close.close)).joinReady
            = false) :=
  ⟨by decide, close_twice_leaves_unconsumed_sentinel
    [PyObj.mk 1 1, PyObj.mk 2 2] (by decide)⟩

/-- C9.  The SENTINEL is one class-level object shared by every
ClosableQueue instance: closing any queue enqueues that very object, and
it is the same object whose identity stops iteration of any other queue,
so the end-of-stream marker is global to the class, not per-queue. -/
theorem shared_class_level_sentinel (q1 q2 : ClosableQueue)
    (h1 : q1.maxsize = 0) (h2 : sentinelFree q2.queue) :
    q1.close.queue = q1.queue ++ [ClosableQueue.SENTINEL]
    ∧ iterYield (q2.queue ++ [ClosableQueue.SENTINEL]) = q2.queue := by
  refine ⟨?_, iterYield_append_sentinel q2.queue [] h2⟩
  rw [close_unbounded q1 h1]

/-- Witness for C9: the object enqueued by closing a fresh queue stops
iteration of a different queue holding one user item. -/
theorem shared_class_level_sentinel_witness :
    (ClosableQueue.new.maxsize = 0
      ∧ sentinelFree (ClosableQueue.mk [PyObj.mk 5 5] 0 1).queue)
    ∧ (ClosableQueue.new.close.queue
        = ClosableQueue.new.queue ++ [ClosableQueue.SENTINEL]
      ∧ iterYield ((ClosableQueue.mk [PyObj.mk 5 5] 0 1).queue
          ++ [ClosableQueue.SENTINEL])
        = (ClosableQueue.mk [PyObj.mk 5 5] 0 1).queue) :=
  ⟨⟨by decide, by decide⟩,
   shared_class_level_sentinel ClosableQueue.new
     (ClosableQueue.mk [PyObj.mk 5 5] 0 1) (by decide) (by decide)⟩

/-- C3 counterexample.  The queues that connect the pipeline stages of
example_five are constructed as ClosableQueue(), i.e. Python Queue()
with its default maxsize of 0: they are unbounded, two consecutive puts
leave two items resident with the queue still not full (so a producer is
never blocked at any buffer length), refuting the claim that every
stage-connecting queue is bounded by a fixed capacity. -/
theorem stage_queues_unbounded_cx :
    ClosableQueue.new.maxsize = 0
    ∧ (applyOps [QOp.put (PyObj.mk 1 1), QOp.put (PyObj.mk 2 2)]
        ClosableQueue.new).queue.length = 2
    ∧ (applyOps [QOp.put (PyObj.mk 1 1), QOp.put (PyObj.mk 2 2)]
        ClosableQueue.new).isFull = false := by
  decide

/-- C3 as amended.  The bounded-queue behavior belongs to the queues
built with a positive maxsize (the module-level Queue(1) of line 11, not
the stage queues of example_five): starting from an empty queue of
capacity C > 0, no sequence of put/get/task_done operations ever makes
the buffer hold more than C items, and a put on a full queue blocks
(returns no new state) rather than raising an error. -/
theorem bounded_queue_capacity_invariant (C : Nat) (ops : List QOp)
    (hC : 0 < C) :
    (applyOps ops (ClosableQueue.mk [] C 0)).queue.length ≤ C
    ∧ (∀ (q : ClosableQueue) (x : PyObj), q.isFull = true → q.put? x = none) := by
  refine ⟨(applyOps_length_le ops (ClosableQueue.mk [] C 0) hC (by simp)).1,
    fun q x hf => ?_⟩
  simp [ClosableQueue.put?, hf]

/-- Witness for the amended C3 at capacity 1 with three puts and a get. -/
theorem bounded_queue_capacity_invariant_witness :
    0 < 1
    ∧ ((applyOps [QOp.put (PyObj.mk 1 1), QOp.put (PyObj.mk 2 2), QOp.get,
          QOp.put (PyObj.mk 3 3)] (ClosableQueue.mk [] 1 0)).queue.length ≤ 1
        ∧ (∀ (q : ClosableQueue) (x : PyObj), q.isFull = true → q.put? x = none)) :=
  ⟨by decide, bounded_queue_capacity_invariant 1
    [QOp.put (PyObj.mk 1 1), QOp.put (PyObj.mk 2 2), QOp.get,
     QOp.put (PyObj.mk 3 3)] (by decide)⟩

/-- C4 counterexample.  ClosableQueue keeps no closed flag and defines no
QueueClosed error: a put made after close() succeeds, enqueuing the item
behind the sentinel (here on a fresh queue: the buffer becomes sentinel
then item, with two unfinished tasks), so no error is raised or
propagated. -/
theorem put_after_close_succeeds_cx :
    ClosableQueue.new.close.put? (PyObj.mk 5 5)
      = some (ClosableQueue.mk [ClosableQueue.SENTINEL, PyObj.mk 5 5] 0 2) := by
  decide

/-- C4 as amended.  On the (unbounded) ClosableQueue a put after close()
succeeds silently: the item is appended behind the sentinel and counted
as an unfinished task, and iteration - which stops at the sentinel -
never yields it. -/
theorem put_after_close_enqueues_behind_sentinel (q : ClosableQueue)
    (x : PyObj) (hm : q.maxsize = 0) (h : sentinelFree q.queue) :
    q.close.put? x
      = some (ClosableQueue.mk (q.queue ++ [ClosableQueue.SENTINEL, x]) 0
          (q.unfinished_tasks + 2))
    ∧ iterYield (q.queue ++ [ClosableQueue.SENTINEL, x]) = q.queue := by
  refine ⟨?_, iterYield_append_sentinel q.queue [x] h⟩
  rw [close_unbounded q hm]
  simp [ClosableQueue.put?, ClosableQueue.isFull, hm, List.append_assoc]

/-- Witness for the amended C4 on a queue already holding one item. -/
theorem put_after_close_enqueues_behind_sentinel_witness :
    ((ClosableQueue.mk [PyObj.mk 1 1] 0 1).maxsize = 0
      ∧ sentinelFree (ClosableQueue.mk [PyObj.mk 1 1] 0 1).queue)
    ∧ ((ClosableQueue.mk [PyObj.mk 1 1] 0 1).close.put? (PyObj.mk 5 5)
        = some (ClosableQueue.mk
            ([PyObj.mk 1 1] ++ [ClosableQueue.SENTINEL, PyObj.mk 5 5]) 0 3)
      ∧ iterYield ([PyObj.mk 1 1] ++ [ClosableQueue.SENTINEL, PyObj.mk 5 5])
          = [PyObj.mk 1 1]) :=
  ⟨⟨by decide, by decide⟩,
   put_after_close_enqueues_behind_sentinel
     (ClosableQueue.mk [PyObj.mk 1 1] 0 1) (PyObj.mk 5 5) (by decide) (by decide)⟩

/-- C5.  On a buffer containing the sentinel: iteration yields exactly
the items ahead of the first sentinel and stops without yielding it; the
sentinel is recognized by object identity (its id), so a user item that
is value-equal but not identical to it is still yielded; the sentinel is
never fed to a transform; and task_done is performed for every dequeued
item - the terminal sentinel included - on every exit path, a transform
error included (a crashed run still counts its in-hand item). -/
theorem iteration_sentinel_discipline (buf : List PyObj)
    (f : PyObj → Except Nat PyObj)
    (h : ∃ x ∈ buf, x.id = ClosableQueue.SENTINEL.id) :
    iterYield buf = buf.takeWhile (fun x => x.id != ClosableQueue.SENTINEL.id)
    ∧ (∀ x ∈ iterYield buf, x.id ≠ ClosableQueue.SENTINEL.id)
    ∧ iterDone buf = (iterYield buf).length + 1
    ∧ (∀ x ∈ (runWorker f buf).fed, x.id ≠ ClosableQueue.SENTINEL.id)
    ∧ (runWorker f buf).done = (runWorker f buf).fed.length
        + (if (runWorker f buf).status = RunStatus.finished then 1 else 0)
    ∧ (∀ y : PyObj, y.id ≠ ClosableQueue.SENTINEL.id →
        iterYield [y, ClosableQueue.SENTINEL] = [y]) :=
  ⟨iterYield_eq_takeWhile buf, iterYield_no_sentinel buf,
   iterDone_eq buf h, runWorker_fed_no_sentinel f buf,
   runWorker_done_counts f buf,
   fun y hy => by simp [iterYield, hy]⟩

/-- Witness for C5 on a buffer whose second item is value-equal (val 0)
but not identical (id 2) to the sentinel, followed by the sentinel and a
trailing item. -/
theorem iteration_sentinel_discipline_witness :
    (∃ x ∈ [PyObj.mk 1 1, PyObj.mk 2 0, ClosableQueue.SENTINEL, PyObj.mk 3 3],
        x.id = ClosableQueue.SENTINEL.id)
    ∧ (iterYield [PyObj.mk 1 1, PyObj.mk 2 0, ClosableQueue.SENTINEL, PyObj.mk 3 3]
        = [PyObj.mk 1 1, PyObj.mk 2 0, ClosableQueue.SENTINEL,
            PyObj.mk 3 3].takeWhile (fun x => x.id != ClosableQueue.SENTINEL.id)
      ∧ (∀ x ∈ iterYield [PyObj.mk 1 1, PyObj.mk 2 0, ClosableQueue.SENTINEL,
            PyObj.mk 3 3], x.id ≠ ClosableQueue.SENTINEL.id)
      ∧ iterDone [PyObj.mk 1 1, PyObj.mk 2 0, ClosableQueue.SENTINEL, PyObj.mk 3 3]
          = (iterYield [PyObj.mk 1 1, PyObj.mk 2 0, ClosableQueue.SENTINEL,
              PyObj.mk 3 3]).length + 1
      ∧ (∀ x ∈ (runWorker (okF download) [PyObj.mk 1 1, PyObj.mk 2 0,
            ClosableQueue.SENTINEL, PyObj.mk 3 3]).fed,
          x.id ≠ ClosableQueue.SENTINEL.id)
      ∧ (runWorker (okF download) [PyObj.mk 1 1, PyObj.mk 2 0,
            ClosableQueue.SENTINEL, PyObj.mk 3 3]).done
          = (runWorker (okF download) [PyObj.mk 1 1, PyObj.mk 2 0,
              ClosableQueue.SENTINEL, PyObj.mk 3 3]).fed.length
            + (if (runWorker (okF download) [PyObj.mk 1 1, PyObj.mk 2 0,
                ClosableQueue.SENTINEL, PyObj.mk 3 3]).status
                = RunStatus.finished then 1 else 0)
      ∧ (∀ y : PyObj, y.id ≠ ClosableQueue.SENTINEL.id →
          iterYield [y, ClosableQueue.SENTINEL] = [y])) :=
  ⟨by decide, iteration_sentinel_discipline
    [PyObj.mk 1 1, PyObj.mk 2 0, ClosableQueue.SENTINEL, PyObj.mk 3 3]
    (okF download) (by decide)⟩

/-- C6.  An error raised by the transform is not caught in the worker's
run loop: the run ends crashed with that error, the worker forwards
nothing beyond the items that preceded the failing one (no output for
the failing item or anything after it), and exactly the preceding items
plus the failing one were ever fed to the transform. -/
theorem transform_error_terminates_worker (f : PyObj → Except Nat PyObj)
    (pre : List PyObj) (x : PyObj) (rest : List PyObj) (e : Nat)
    (hpre : ∀ y ∈ pre, y.id ≠ ClosableQueue.SENTINEL.id ∧ ∃ z, f y = Except.ok z)
    (hx : x.id ≠ ClosableQueue.SENTINEL.id) (he : f x = Except.error e) :
    (runWorker f (pre ++ x :: rest)).status = RunStatus.crashed e
    ∧ (runWorker f (pre ++ x :: rest)).out.length = pre.length
    ∧ (runWorker f (pre ++ x :: rest)).fed = pre ++ [x] := by
  induction pre with
  | nil => simp [runWorker, hx, he]
  | cons y ys ih =>
    obtain ⟨hy, z, hz⟩ := hpre y (by simp)
    have ih2 := ih fun w hw => hpre w (by simp [hw])
    simp [runWorker, hy, hz, ih2.1, ih2.2.1, ih2.2.2]

/-- Witness for C6 with crashFunc, which fails on the id-7 item: one good
item is forwarded, the failing item produces no output, the trailing item
is never consumed. -/
theorem transform_error_terminates_worker_witness :
    (∀ y ∈ [PyObj.mk 1 1], y.id ≠ ClosableQueue.SENTINEL.id
        ∧ ∃ z, crashFunc y = Except.ok z)
    ∧ (PyObj.mk 7 7).id ≠ ClosableQueue.SENTINEL.id
    ∧ crashFunc (PyObj.mk 7 7) = Except.error 42
    ∧ ((runWorker crashFunc ([PyObj.mk 1 1] ++ PyObj.mk 7 7 :: [PyObj.mk 2 2])).status
        = RunStatus.crashed 42
      ∧ (runWorker crashFunc ([PyObj.mk 1 1] ++ PyObj.mk 7 7 :: [PyObj.mk 2 2])).out.length
          = [PyObj.mk 1 1].length
      ∧ (runWorker crashFunc ([PyObj.mk 1 1] ++ PyObj.mk 7 7 :: [PyObj.mk 2 2])).fed
          = [PyObj.mk 1 1] ++ [PyObj.mk 7 7]) := by
  have hpre : ∀ y ∈ [PyObj.mk 1 1], y.id ≠ ClosableQueue.SENTINEL.id
      ∧ ∃ z, crashFunc y = Except.ok z := by
    intro y hy
    simp only [List.mem_singleton] at hy
    subst hy
    exact ⟨by decide, ⟨PyObj.mk 1 1, rfl⟩⟩
  exact ⟨hpre, by decide, rfl,
    transform_error_terminates_worker crashFunc [PyObj.mk 1 1] (PyObj.mk 7 7)
      [PyObj.mk 2 2] 42 hpre (by decide) rfl⟩

/-- C7.  FIFO for both queue families: over any operation sequence on an
initially empty queue, the sequence of retrieved items is exactly the
initial segment of the sequence of put items, so an item put earlier is
always retrieved earlier; this holds for the polling MyQueue and for the
blocking (here unbounded) ClosableQueue alike. -/
theorem fifo_retrieval_order (ops : List MOp) (qops : List QOp) :
    (mRun ops).got = (putsOf ops).take (mRun ops).got.length
    ∧ (qRun qops).got = (qPutsOf qops).take (qRun qops).got.length := by
  constructor
  · have h : (mRun ops).got ++ (mRun ops).q.items = putsOf ops := by
      simpa [mRun] using mRun_inv ops (MTrace.mk (MyQueue.mk []) [])
    calc (mRun ops).got
        = ((mRun ops).got ++ (mRun ops).q.items).take (mRun ops).got.length :=
          (take_len_append _ _).symm
      _ = (putsOf ops).take (mRun ops).got.length := by rw [h]
  · have h : (qRun qops).got ++ (qRun qops).q.queue = qPutsOf qops := by
      simpa [qRun] using qRun_inv qops (QTrace.mk ClosableQueue.new []) rfl
    calc (qRun qops).got
        = ((qRun qops).got ++ (qRun qops).q.queue).take (qRun qops).got.length :=
          (take_len_append _ _).symm
      _ = (qPutsOf qops).take (qRun qops).got.length := by rw [h]

/-- C8.  Polling-variant contract: MyQueue.put appends unconditionally
(it always succeeds immediately, whatever the buffer holds, with no
capacity check); get on an empty buffer returns the no-work signal (the
caught IndexError) rather than an item or a crash; and on that signal
the polling worker records one more poll and sleeps the fixed short
interval (0.01 s, i.e. one centisecond unit) before retrying, leaving
both queues and its work counter untouched. -/
theorem polling_queue_contract (f : PyObj → PyObj) (w : Worker)
    (q : MyQueue) (x : PyObj) :
    (q.put x).items = q.items ++ [x]
    ∧ MyQueue.get (MyQueue.mk []) = none
    ∧ sleepCentis = 1
    ∧ (w.in_queue.items = [] →
        Worker.step f w
          = { w with polled_count := w.polled_count + 1,
                     slept_centis := w.slept_centis + sleepCentis }) := by
  refine ⟨rfl, rfl, rfl, fun hempty => ?_⟩
  rcases w with ⟨⟨items⟩, outq, pc, wd, sc⟩
  simp only at hempty
  subst hempty
  rfl

/-- Witness for C8 on a concrete idle worker. -/
theorem polling_queue_contract_witness :
    ((MyQueue.mk [PyObj.mk 9 9]).put (PyObj.mk 4 4)).items
        = [PyObj.mk 9 9] ++ [PyObj.mk 4 4]
    ∧ MyQueue.get (MyQueue.mk []) = none
    ∧ sleepCentis = 1
    ∧ ((Worker.mk (MyQueue.mk []) (MyQueue.mk []) 3 0 2).in_queue.items = [] →
        Worker.step download (Worker.mk (MyQueue.mk []) (MyQueue.mk []) 3 0 2)
          = { Worker.mk (MyQueue.mk []) (MyQueue.mk []) 3 0 2 with
                polled_count := 3 + 1, slept_centis := 2 + sleepCentis }) :=
  polling_queue_contract download
    (Worker.mk (MyQueue.mk []) (MyQueue.mk []) 3 0 2)
    (MyQueue.mk [PyObj.mk 9 9]) (PyObj.mk 4 4)

/-- One loop iteration always increments polled_count by exactly one,
whichever branch runs. -/
theorem step_polled_count (f : PyObj → PyObj) (w : Worker) :
    (Worker.step f w).polled_count = w.polled_count + 1 := by
  rcases w with ⟨⟨items⟩, outq, pc, wd, sc⟩
  cases items <;> rfl

/-- One loop iteration on an empty input queue only polls and sleeps. -/
theorem step_empty (f : PyObj → PyObj) (w : Worker)
    (h : w.in_queue.items = []) :
    Worker.step f w
      = { w with polled_count := w.polled_count + 1,
                 slept_centis := w.slept_centis + sleepCentis } := by
  rcases w with ⟨⟨items⟩, outq, pc, wd, sc⟩
  simp only at h
  subst h
  rfl

/-- C10.  The polling Worker.run loop is an unconditional while-True with
no stop condition: after any number n of iterations the worker has
performed exactly n more polls (so for every n it is still running and
polled_count grows without bound), and on an already-empty input queue -
as after example_one's 1000 items are all processed - the iterations
change nothing but the poll count and the time slept. -/
theorem polling_worker_never_terminates (f : PyObj → PyObj) (w : Worker)
    (n : Nat) :
    (Worker.runSteps f n w).polled_count = w.polled_count + n
    ∧ (w.in_queue.items = [] →
        Worker.runSteps f n w
          = { w with polled_count := w.polled_count + n,
                     slept_centis := w.slept_centis + n * sleepCentis }) := by
  induction n generalizing w with
  | zero => exact ⟨rfl, fun _ => rfl⟩
  | succ n ih =>
    constructor
    · have h1 := (ih (Worker.step f w)).1
      rw [Worker.runSteps, h1, step_polled_count]
      omega
    · intro hempty
      have hstep := step_empty f w hempty
      have hin : (Worker.step f w).in_queue.items = [] := by
        rw [hstep]
        exact hempty
      have h2 := (ih (Worker.step f w)).2 hin
      rw [Worker.runSteps, h2, hstep]
      rcases w with ⟨inq, outq, pc, wd, sc⟩
      simp only [Worker.mk.injEq, sleepCentis]
      exact ⟨trivial, trivial, by omega, trivial, by omega⟩

/-- Witness for C10: four iterations on an idle worker. -/
theorem polling_worker_never_terminates_witness :
    (Worker.mk (MyQueue.mk []) (MyQueue.mk []) 0 0 0).in_queue.items = []
    ∧ ((Worker.runSteps download 4
          (Worker.mk (MyQueue.mk []) (MyQueue.mk []) 0 0 0)).polled_count
        = (Worker.mk (MyQueue.mk []) (MyQueue.mk []) 0 0 0).polled_count + 4
      ∧ ((Worker.mk (MyQueue.mk []) (MyQueue.mk []) 0 0 0).in_queue.items = [] →
          Worker.runSteps download 4
              (Worker.mk (MyQueue.mk []) (MyQueue.mk []) 0 0 0)
            = { Worker.mk (MyQueue.mk []) (MyQueue.mk []) 0 0 0 with
                  polled_count :=
                    (Worker.mk (MyQueue.mk []) (MyQueue.mk []) 0 0 0).polled_count + 4,
                  slept_centis :=
                    (Worker.mk (MyQueue.mk []) (MyQueue.mk []) 0 0 0).slept_centis
                      + 4 * sleepCentis })) :=
  ⟨rfl, polling_worker_never_terminates download
    (Worker.mk (MyQueue.mk []) (MyQueue.mk []) 0 0 0) 4⟩

end Item39
